import Mathlib

/-!
Shallow embedding of the ts-rustools library (src/src/optional.ts,
src/src/result.ts, and the Enum base class).

The source represents every wrapped value as a runtime-tagged pair
`this.value = [discriminant, payload]` with a type-erased payload slot
(`as T` casts).  We model the payload slot by a dynamic value type
`JSVal` covering the JavaScript values the library touches (null,
undefined, booleans, numbers, strings, arrays), and an Optional / Result
instance by a record holding the discriminant string and the payload
slot.

Methods mutate the receiver in place (`insert`, `take`, `replace` assign
to `this.value`), so every method is embedded as a state-passing
function: it receives the receiver's state and returns the pair
(returned value, state of the receiver after the call).  Methods whose
bodies contain no assignment return the input state in the second
component, copied verbatim from the absence of writes in the source.
Methods that can throw (`unwrap`, `expect`) return `Except JSError`.
-/

namespace Rustools

/-- Dynamic JavaScript-like values: the contents of the type-erased
payload slot. -/
inductive JSVal where
  | null : JSVal
  | undef : JSVal
  | bool : Bool → JSVal
  | num : Int → JSVal
  | str : String → JSVal
  | arr : List JSVal → JSVal

/-- A thrown `Error(message)` object, as raised by `unwrap` and
`expect`. -/
structure JSError where
  message : String

/-- State of an `Optional` instance: `this.value = [tag, payload]`. -/
structure OptionalS where
  tag : String
  payload : JSVal

/-- State of a `Result` instance: `this.value = [tag, payload]`. -/
structure ResultS where
  tag : String
  payload : JSVal

/-- Factory `Some(value)`: `new Optional(["Some", value])`. -/
def Some (value : JSVal) : OptionalS := ⟨"Some", value⟩

/-- Factory `None()`: `new Optional(["None", null])`. -/
def None : OptionalS := ⟨"None", JSVal.null⟩

/-- Factory `Ok(value)`: `new Result(["Ok", value])`. -/
def Ok (value : JSVal) : ResultS := ⟨"Ok", value⟩

/-- Factory `Err(err)`: `new Result(["Err", err])`. -/
def Err (err : JSVal) : ResultS := ⟨"Err", err⟩

namespace Optional

/-- Getter `isSome`: `this.value[0] == "Some"`. -/
def isSome (o : OptionalS) : Bool × OptionalS :=
  (o.tag == "Some", o)

/-- Getter `isNone`: `this.value[0] == "None"`. -/
def isNone (o : OptionalS) : Bool × OptionalS :=
  (o.tag == "None", o)

/-- `isSomeAnd(f)`: `if (this.isNone) return false; return f(this.value[1])`. -/
def isSomeAnd (o : OptionalS) (f : JSVal → Bool) : Bool × OptionalS :=
  if (isNone o).1 then (false, o) else (f o.payload, o)

/-- `unwrap()`: throws `Error("Panic: Unwrapped Optional.None variant.")`
on the None variant, otherwise returns the payload. -/
def unwrap (o : OptionalS) : Except JSError JSVal × OptionalS :=
  if (isNone o).1 then
    (Except.error ⟨"Panic: Unwrapped Optional.None variant."⟩, o)
  else (Except.ok o.payload, o)

/-- `unwrap_or(fallback)`: payload on Some, else the fallback. -/
def unwrap_or (o : OptionalS) (fallback : JSVal) : JSVal × OptionalS :=
  if (isSome o).1 then (o.payload, o) else (fallback, o)

/-- `unwrap_or_else(f)`: payload on Some, else `f()`. -/
def unwrap_or_else (o : OptionalS) (f : Unit → JSVal) : JSVal × OptionalS :=
  if (isSome o).1 then (o.payload, o) else (f (), o)

/-- `map(f)`: `None()` on the None variant, else `Some(f(this.value[1]))`. -/
def map (o : OptionalS) (f : JSVal → JSVal) : OptionalS × OptionalS :=
  if (isNone o).1 then (None, o) else (Some (f o.payload), o)

/-- `inspect(f)`: calls `f(this.value[1])` on Some for its side effect
and returns `this` either way. -/
def inspect (o : OptionalS) (f : JSVal → Unit) : OptionalS × OptionalS :=
  if (isSome o).1 then (let _ := f o.payload; (o, o)) else (o, o)

/-- `expect(msg)`: throws `Error(msg)` on the None variant, otherwise
returns the payload. -/
def expect (o : OptionalS) (msg : String) : Except JSError JSVal × OptionalS :=
  if (isNone o).1 then (Except.error ⟨msg⟩, o) else (Except.ok o.payload, o)

/-- `map_or(def, f)`: `this.isSome ? this.map(f) : Some(f(def))`. -/
def map_or (o : OptionalS) (d : JSVal) (f : JSVal → JSVal) :
    OptionalS × OptionalS :=
  if (isSome o).1 then map o f else (Some (f d), o)

/-- `map_or_else(def, f)`: `this.isSome ? this.map(f) : Some(f(def()))`. -/
def map_or_else (o : OptionalS) (d : Unit → JSVal) (f : JSVal → JSVal) :
    OptionalS × OptionalS :=
  if (isSome o).1 then map o f else (Some (f (d ())), o)

/-- `ok_or(err)`: `if (this.isSome) return Err(err); else return
Ok(this.value[1])` — transcribed exactly as written in the source (the
branches are the reverse of the method's own doc comment). -/
def ok_or (o : OptionalS) (err : JSVal) : ResultS × OptionalS :=
  if (isSome o).1 then (Err err, o) else (Ok o.payload, o)

/-- `ok_or_else(err)`: `if (this.isSome) return Err(err()); else return
Ok(this.value[1])` — transcribed exactly as written in the source. -/
def ok_or_else (o : OptionalS) (err : Unit → JSVal) : ResultS × OptionalS :=
  if (isSome o).1 then (Err (err ()), o) else (Ok o.payload, o)

/-- `and(optb)`: `optb` on Some, else `this`. -/
def and (o : OptionalS) (optb : OptionalS) : OptionalS × OptionalS :=
  if (isSome o).1 then (optb, o) else (o, o)

/-- `and_then(f)`: `f(this.value[1])` on Some, else `None()`. -/
def and_then (o : OptionalS) (f : JSVal → OptionalS) : OptionalS × OptionalS :=
  if (isSome o).1 then (f o.payload, o) else (None, o)

/-- `or(optb)`: `this` on Some, else `optb`. -/
def or (o : OptionalS) (optb : OptionalS) : OptionalS × OptionalS :=
  if (isSome o).1 then (o, o) else (optb, o)

/-- `or_else(f)`: `this` on Some, else `f()`. -/
def or_else (o : OptionalS) (f : Unit → OptionalS) : OptionalS × OptionalS :=
  if (isSome o).1 then (o, o) else (f (), o)

/-- `insert(value)`: `this.value = ["Some", value]; return this`. -/
def insert (o : OptionalS) (value : JSVal) : OptionalS × OptionalS :=
  let o2 : OptionalS := ⟨"Some", value⟩
  (o2, o2)

/-- `take()`: on Some, sets `this.value = ["None", null]` and returns
`Some` of the old payload; on None returns `None()` with no write. -/
def take (o : OptionalS) : OptionalS × OptionalS :=
  if (isSome o).1 then (Some o.payload, ⟨"None", JSVal.null⟩)
  else (None, o)

/-- `replace(value)`: on Some, sets `this.value[1] = value` (the tag
slot is untouched) and returns `Some` of the old payload; on None
returns `None()` with no write. -/
def replace (o : OptionalS) (value : JSVal) : OptionalS × OptionalS :=
  if (isSome o).1 then (Some o.payload, ⟨o.tag, value⟩)
  else (None, o)

/-- `zip(optb)`: `Some([a, b])` when both are Some, else `None()`. -/
def zip (o : OptionalS) (optb : OptionalS) : OptionalS × OptionalS :=
  if (isSome o).1 && (isSome optb).1 then
    (Some (JSVal.arr [o.payload, optb.payload]), o)
  else (None, o)

/-- `unzip()`: when the payload slot is an array of length 2, returns
`[Some(a), Some(b)]`, else `[None(), None()]`. -/
def unzip (o : OptionalS) : (OptionalS × OptionalS) × OptionalS :=
  match o.payload with
  | JSVal.arr [a, b] => ((Some a, Some b), o)
  | _ => ((None, None), o)

end Optional

/-- JavaScript `String(e)` coercion on the values `JSVal` covers
(arrays stringify as their comma-joined elements). -/
def jsToString : JSVal → String
  | JSVal.null => "null"
  | JSVal.undef => "undefined"
  | JSVal.bool b => if b then "true" else "false"
  | JSVal.num n => toString n
  | JSVal.str s => s
  | JSVal.arr xs => String.intercalate "," (xs.attach.map (fun x => jsToString x.1))
decreasing_by
  have h := List.sizeOf_lt_of_mem x.2
  simp only [JSVal.arr.sizeOf_spec]
  omega

/-- `intoResult(f)`: runs the thunk; a normal return `v` yields `Ok(v)`,
a thrown value `e` is caught and yields `Err(String(e))`.  The thunk is
embedded as returning `Except JSVal JSVal`: `Except.error e` models a
throw of `e`. -/
def intoResult (f : Unit → Except JSVal JSVal) : ResultS :=
  match f () with
  | Except.ok v => Ok v
  | Except.error e => Err (JSVal.str (jsToString e))

/-- `catchInto(fn)`: same body as `intoResult` in the other revision of
result.ts. -/
def catchInto (fn : Unit → Except JSVal JSVal) : ResultS :=
  match fn () with
  | Except.ok v => Ok v
  | Except.error e => Err (JSVal.str (jsToString e))

namespace Result

/-- `ok()`: `this.value[0] == "Ok" ? Some(this.value[1]) : None()`. -/
def ok (r : ResultS) : OptionalS :=
  if r.tag == "Ok" then Some r.payload else None

end Result

end Rustools

namespace Rustools

/-- Claim C1: the spec states that ok_or maps Some(v) to Ok(v) and None to
Err(e), and ok_or_else likewise with the thunk's value.  The code does the
opposite: on Some it returns Err of the supplied error, and on None it
returns Ok of the null payload slot.  This theorem evaluates the code at
the failing inputs. -/
theorem c1_ok_or_branches_inverted :
    Optional.ok_or (Some (JSVal.num 1)) (JSVal.str "e") =
      (Err (JSVal.str "e"), Some (JSVal.num 1))
    ∧ Optional.ok_or None (JSVal.str "e") = (Ok JSVal.null, None)
    ∧ Optional.ok_or_else (Some (JSVal.num 1)) (fun _ => JSVal.str "e") =
      (Err (JSVal.str "e"), Some (JSVal.num 1))
    ∧ Optional.ok_or_else None (fun _ => JSVal.str "e") = (Ok JSVal.null, None) :=
  ⟨rfl, rfl, rfl, rfl⟩

/-- Claim C2: map_or(d, f) on Some(v) returns Some(f(v)) and on None returns
Some(f(d)); map_or_else(dt, f) behaves the same with the fallback input
produced by the thunk — both branches wrap the result in Some. -/
theorem c2_map_or_wraps_both_branches (v d : JSVal) (f : JSVal → JSVal)
    (dt : Unit → JSVal) :
    (Optional.map_or (Some v) d f).1 = Some (f v)
    ∧ (Optional.map_or None d f).1 = Some (f d)
    ∧ (Optional.map_or_else (Some v) dt f).1 = Some (f v)
    ∧ (Optional.map_or_else None dt f).1 = Some (f (dt ())) :=
  ⟨rfl, rfl, rfl, rfl⟩

/-- Claim C3: replace(v2) on Some(v1) returns Some(v1) and leaves the
receiver as Some(v2); replace(v2) on None returns None and leaves the
receiver as None — the new value is not installed when the receiver was
empty. -/
theorem c3_replace (v1 v2 : JSVal) :
    Optional.replace (Some v1) v2 = (Some v1, Some v2)
    ∧ Optional.replace None v2 = (None, None) :=
  ⟨rfl, rfl⟩

/-- Claim C4: take() on Some(v) resets the receiver to None and returns
Some(v); take() on None returns None with the receiver unchanged, so a
second consecutive take() returns None with the receiver still None. -/
theorem c4_take (v : JSVal) :
    Optional.take (Some v) = (Some v, None)
    ∧ Optional.take None = (None, None)
    ∧ Optional.take (Optional.take (Some v)).2 = (None, None) :=
  ⟨rfl, rfl, rfl⟩

/-- Claim C5: unwrap() on Some(v) returns v without failing; unwrap() on
None throws the designated panic error; expect(msg) is identical except
the None failure carries the caller-supplied message. -/
theorem c5_unwrap_expect (v : JSVal) (msg : String) :
    (Optional.unwrap (Some v)).1 = Except.ok v
    ∧ (Optional.unwrap None).1 =
      Except.error ⟨"Panic: Unwrapped Optional.None variant."⟩
    ∧ (Optional.expect (Some v) msg).1 = Except.ok v
    ∧ (Optional.expect None msg).1 = Except.error ⟨msg⟩ :=
  ⟨rfl, rfl, rfl, rfl⟩

/-- Claim C6: intoResult(f) returns Ok(f()) when the thunk completes
normally, and Err of the string description of the thrown value when it
throws; in particular a thunk returning 5 yields Ok(5) and a thunk
throwing "boom" yields Err("boom"). -/
theorem c6_intoResult (g : Unit → JSVal) (e : JSVal) :
    intoResult (fun u => Except.ok (g u)) = Ok (g ())
    ∧ intoResult (fun _ => Except.error e) = Err (JSVal.str (jsToString e))
    ∧ intoResult (fun _ => Except.ok (JSVal.num 5)) = Ok (JSVal.num 5)
    ∧ intoResult (fun _ => Except.error (JSVal.str "boom")) =
      Err (JSVal.str "boom") := by
  refine ⟨rfl, rfl, rfl, ?_⟩
  simp [intoResult, jsToString]

/-- Claim C7: map satisfies the functor laws: Some(v).map(id) = Some(v),
map(f) then map(g) equals map(g after f) on Some(v), and map(f) on None
returns None for any f. -/
theorem c7_map_functor_laws (v : JSVal) (f g : JSVal → JSVal) :
    (Optional.map (Some v) (fun x => x)).1 = Some v
    ∧ (Optional.map (Optional.map (Some v) f).1 g).1 =
      (Optional.map (Some v) (fun x => g (f x))).1
    ∧ (Optional.map None f).1 = None :=
  ⟨rfl, rfl, rfl⟩

/-- Claim C8: the chain
Some(4).and_then(x => x > 0 ? Some(x*2) : None()).map(x => x+1).unwrap_or(0)
evaluates to 9.  The numeric arrow functions are embedded on the num case
of the dynamic value domain. -/
theorem c8_chain_evaluates_to_nine :
    (Optional.unwrap_or
      (Optional.map
        (Optional.and_then (Some (JSVal.num 4))
          (fun x =>
            match x with
            | JSVal.num n => if 0 < n then Some (JSVal.num (n * 2)) else None
            | _ => None)).1
        (fun x =>
          match x with
          | JSVal.num n => JSVal.num (n + 1)
          | v => v)).1
      (JSVal.num 0)).1 = JSVal.num 9 := by
  rfl

/-- Claim C9: presence is decided by the discriminant tag alone, never the
payload: for every value v, including null and undefined, Some(v) has
isSome true and isNone false, and Some(v).unwrap() returns v without
failing. -/
theorem c9_presence_is_tag_only (v : JSVal) :
    (Optional.isSome (Some v)).1 = true
    ∧ (Optional.isNone (Some v)).1 = false
    ∧ (Optional.unwrap (Some v)).1 = Except.ok v
    ∧ (Optional.isSome (Some JSVal.null)).1 = true
    ∧ (Optional.isSome (Some JSVal.undef)).1 = true
    ∧ (Optional.unwrap (Some JSVal.null)).1 = Except.ok JSVal.null :=
  ⟨rfl, rfl, rfl, rfl, rfl, rfl⟩

/-- Claim C10: every Optional operation other than insert, take, and
replace — isSome, isNone, isSomeAnd, unwrap, unwrap_or, unwrap_or_else,
map, inspect, expect, map_or, map_or_else, ok_or, ok_or_else, and,
and_then, or, or_else, zip, unzip — leaves the receiver's discriminant
and payload unchanged. -/
theorem c10_non_mutating_frame (o optb : OptionalS) (p : JSVal → Bool)
    (f : JSVal → JSVal) (g : JSVal → OptionalS) (t : Unit → OptionalS)
    (u : Unit → JSVal) (k : JSVal → Unit) (d e : JSVal) (msg : String) :
    (Optional.isSome o).2 = o
    ∧ (Optional.isNone o).2 = o
    ∧ (Optional.isSomeAnd o p).2 = o
    ∧ (Optional.unwrap o).2 = o
    ∧ (Optional.unwrap_or o d).2 = o
    ∧ (Optional.unwrap_or_else o u).2 = o
    ∧ (Optional.map o f).2 = o
    ∧ (Optional.inspect o k).2 = o
    ∧ (Optional.expect o msg).2 = o
    ∧ (Optional.map_or o d f).2 = o
    ∧ (Optional.map_or_else o u f).2 = o
    ∧ (Optional.ok_or o e).2 = o
    ∧ (Optional.ok_or_else o u).2 = o
    ∧ (Optional.and o optb).2 = o
    ∧ (Optional.and_then o g).2 = o
    ∧ (Optional.or o optb).2 = o
    ∧ (Optional.or_else o t).2 = o
    ∧ (Optional.zip o optb).2 = o
    ∧ (Optional.unzip o).2 = o := by
  repeat' apply And.intro
  all_goals
    simp only [Optional.isSome, Optional.isNone, Optional.isSomeAnd,
      Optional.unwrap, Optional.unwrap_or, Optional.unwrap_or_else,
      Optional.map, Optional.inspect, Optional.expect, Optional.map_or,
      Optional.map_or_else, Optional.ok_or, Optional.ok_or_else,
      Optional.and, Optional.and_then, Optional.or, Optional.or_else,
      Optional.zip, Optional.unzip]
  all_goals repeat' split
  all_goals rfl

end Rustools
